import Mathlib

/-!
Shallow embedding of the SCALES VIP qualification server (`src/server.js`).

The corpus holds three revisions of the same Express server, separated by
document markers; we embed them as namespaces `V1`, `V2`, `V3` over a shared
data model.  Remote BigCommerce state (customers, attribute values) is a
`Directory` value; the outbound API calls a handler issues are recorded as an
`Effect` list.  JavaScript `Date` parsing is an oracle `parse : String → Int`
(milliseconds), and the float division `(now - t) / 86400000 > 90` is modelled
by the exact equivalent `now - t > 90 * 86400000`.
-/

namespace Scales

/-- Milliseconds per day, `1000 * 60 * 60 * 24` in the source. -/
def msPerDay : Int := 1000 * 60 * 60 * 24

/-- Constant `DISCOUNT_DAYS = 90` in every revision. -/
def DISCOUNT_DAYS : Int := 90

/-- A customer attribute-value record as returned by
`/v3/customers/attribute-values`. -/
structure AttrValue where
  id : Nat
  customer_id : Nat
  attribute_id : Nat
  attribute_value : String
deriving Repr, DecidableEq

/-- A customer as returned by `/v3/customers`. -/
structure Customer where
  id : Nat
  customer_group_id : Nat
deriving Repr, DecidableEq

/-- One order line item (`name`, `quantity`). -/
structure Product where
  name : String
  quantity : Nat
deriving Repr, DecidableEq

/-- An order header: `customer_id` is `none` when the field is absent
(JS `undefined`), mirroring the `!customerId || customerId === 0` guard. -/
structure Order where
  id : Nat
  customer_id : Option Nat
deriving Repr, DecidableEq

/-- The remote directory state visible to the handlers. -/
structure Directory where
  customers : List Customer
  attrValues : List AttrValue
deriving Repr, DecidableEq

/-- An outbound write issued against the remote directory. -/
inductive Effect where
  | setDate (customerId : Nat) (value : String)
  | addVIP (customerId : Nat)
  | removeVIP (customerId : Nat)
  | deleteAttr (recordId : Nat)
deriving Repr, DecidableEq

/-- Outcome of one webhook delivery: HTTP status, the writes issued, and
whether the customer was added to the `recentlyQualified` popup map. -/
structure HandlerResult where
  status : Nat
  effects : List Effect
  markedRecent : Bool
deriving Repr, DecidableEq

/-- Sum of line-item quantities, `products.reduce((sum, p) => sum + p.quantity, 0)`. -/
def totalQuantity (products : List Product) : Nat :=
  (products.map Product.quantity).sum

/-- Helper `getQualificationAttribute`: find the record with this customer id and
the configured date attribute id (`server.js` lines 139-153; the same
two-condition `find` appears inline in revisions 2 and 3). -/
def getQualificationAttribute (dir : Directory) (dateAttrId customerId : Nat) :
    Option AttrValue :=
  dir.attrValues.find? fun av =>
    av.customer_id == customerId && av.attribute_id == dateAttrId

/-- Helper `checkIfQualified`: `attr?.attribute_value || null` — the empty string is
falsy in JavaScript, so it coerces to `null`. -/
def checkIfQualified (dir : Directory) (dateAttrId customerId : Nat) :
    Option String :=
  match getQualificationAttribute dir dateAttrId customerId with
  | none => none
  | some attr =>
    if attr.attribute_value = "" then none else some attr.attribute_value

/-- Result of `checkExpiry` (revision 1, lines 162-175). -/
structure ExpiryInfo where
  expired : Bool
  qualifiedDate : Option String
  attrId : Option Nat
deriving Repr, DecidableEq

/-- Helper `checkExpiry`: a missing record or empty value is already-expired;
otherwise expired iff `(now - parse value) / msPerDay > DISCOUNT_DAYS`,
modelled exactly as `now - parse value > DISCOUNT_DAYS * msPerDay`. -/
def checkExpiry (parse : String → Int) (now : Int) (dir : Directory)
    (dateAttrId customerId : Nat) : ExpiryInfo :=
  match getQualificationAttribute dir dateAttrId customerId with
  | none => ⟨true, none, none⟩
  | some attr =>
    if attr.attribute_value = "" then ⟨true, none, none⟩
    else
      ⟨DISCOUNT_DAYS * msPerDay < now - parse attr.attribute_value,
       some attr.attribute_value, some attr.id⟩

/-- The writes `deleteQualificationDate` issues (revision 1, lines 200-217):
look the record up, delete by record id, no-op when absent. -/
def deleteQualificationDateEffects (dir : Directory) (dateAttrId customerId : Nat) :
    List Effect :=
  match getQualificationAttribute dir dateAttrId customerId with
  | none => []
  | some attr => [Effect.deleteAttr attr.id]

/-- Test `customer && customer.customer_group_id === parseInt(VIP_GROUP_ID)` after
the `id:in=` customer fetch. -/
def isVIPIn (dir : Directory) (vipGroupId customerId : Nat) : Bool :=
  (dir.customers.find? fun c => c.id == customerId).any
    fun c => c.customer_group_id == vipGroupId

/-- The dedup window: `setTimeout(..., 60000)`. -/
def DEDUP_WINDOW : Int := 60000

/-- The dedup set `processedWebhooks`, with each key paired with its
insertion instant so the scheduled eviction can be modelled. -/
abbrev DedupState : Type := List (String × Int)

/-- The webhook identity
`` `${scope}-${data?.id}-${created_at}` `` (all three revisions). -/
def webhookKey (scope : String) (dataId : Nat) (created_at : Nat) : String :=
  scope ++ "-" ++ Nat.repr dataId ++ "-" ++ Nat.repr created_at

/-- Apply every eviction timer due by `now`: an entry inserted at `t` is
removed once `t + DEDUP_WINDOW ≤ now`. -/
def purge (now : Int) (st : DedupState) : DedupState :=
  st.filter fun e => now < e.2 + DEDUP_WINDOW

/-- The dedup gate at the top of the webhook handler: if the key is present,
skip (the caller still answers 200); otherwise record it, schedule its
eviction, and proceed.  Returns (shouldProcess, new state). -/
def dedupStep (st : DedupState) (key : String) (now : Int) :
    Bool × DedupState :=
  let st' := purge now st
  if st'.any (fun e => e.1 == key) then (false, st')
  else (true, (key, now) :: st')

namespace V1

/-- Constant `MIN_QUANTITY = 2000` in revision 1. -/
def MIN_QUANTITY : Nat := 2000

/-- Revision 1 `store/order/created` processing (lines 312-399), after the
dedup gate.  `dateOk`/`groupOk` are the outcomes of the two writes and
`verify` is the re-read used for verification; all three PUT calls are
attempted regardless of each other, so the issued effects do not depend on
the outcomes. -/
def handleOrder (dir : Directory) (vipGroupId dateAttrId : Nat)
    (parse : String → Int) (now : Int) (today : String)
    (products : List Product) (order : Order)
    (dateOk groupOk : Bool) (verify : Option String) : HandlerResult :=
  match order.customer_id with
  | none => ⟨200, [], false⟩
  | some cid =>
    if cid == 0 then ⟨200, [], false⟩
    else if isVIPIn dir vipGroupId cid then
      if (checkExpiry parse now dir dateAttrId cid).expired then
        ⟨200, Effect.removeVIP cid ::
              deleteQualificationDateEffects dir dateAttrId cid, false⟩
      else ⟨200, [], false⟩
    else if totalQuantity products < MIN_QUANTITY then ⟨200, [], false⟩
    else
      ⟨200, [Effect.setDate cid today, Effect.addVIP cid],
       dateOk && groupOk && verify.isSome⟩

/-- Revision 1 daily expiry sweep, the loop body of `checkExpiredVIPCustomers`
(lines 274-285) over the already-filtered record list.  `removeFails r` says
the `removeFromVIPGroup` PUT for customer `r` failed — that failure is caught
inside `removeFromVIPGroup` and ignored, so the loop continues.  `deleteFails i`
says the `axios.delete` for record id `i` threw — that call sits bare inside
the loop, so the exception escapes to the outer `catch` and the remaining
records are not processed.  Returns the successful writes and whether the loop
ran to completion. -/
def sweepLoop (parse : String → Int) (now : Int)
    (removeFails deleteFails : Nat → Bool) :
    List AttrValue → List Effect × Bool
  | [] => ([], true)
  | a :: rest =>
    if DISCOUNT_DAYS * msPerDay < now - parse a.attribute_value then
      let removeEffs :=
        if removeFails a.customer_id then [] else [Effect.removeVIP a.customer_id]
      if deleteFails a.id then (removeEffs, false)
      else
        let r := sweepLoop parse now removeFails deleteFails rest
        (removeEffs ++ Effect.deleteAttr a.id :: r.1, r.2)
    else sweepLoop parse now removeFails deleteFails rest

/-- Function `checkExpiredVIPCustomers` (lines 258-294): filter to records of the date
attribute with a truthy (non-empty) value, then run the demotion loop. -/
def checkExpiredVIPCustomers (parse : String → Int) (now : Int)
    (dateAttrId : Nat) (removeFails deleteFails : Nat → Bool)
    (allAttributes : List AttrValue) : List Effect × Bool :=
  sweepLoop parse now removeFails deleteFails
    (allAttributes.filter fun a =>
      a.attribute_id == dateAttrId && !(a.attribute_value == ""))

/-- Revision 1 `POST /webhook` (lines 297-409): dedup gate, then the
order-created processing; any other scope falls through to plain 200.
`fetchOrder`/`fetchProducts` are the Order Source reads. -/
def webhook (dir : Directory) (vipGroupId dateAttrId : Nat)
    (parse : String → Int) (today : String)
    (fetchOrder : Nat → Order) (fetchProducts : Nat → List Product)
    (dateOk groupOk : Bool) (verify : Option String)
    (st : DedupState) (scope : String) (dataId : Nat) (created_at : Nat)
    (now : Int) : HandlerResult × DedupState :=
  let gate := dedupStep st (webhookKey scope dataId created_at) now
  if gate.1 then
    if scope == "store/order/created" then
      (handleOrder dir vipGroupId dateAttrId parse now today
        (fetchProducts dataId) (fetchOrder dataId) dateOk groupOk verify,
       gate.2)
    else (⟨200, [], false⟩, gate.2)
  else (⟨200, [], false⟩, gate.2)

end V1

namespace V2

/-- Constant `MIN_QUANTITY = 5` in revision 2. -/
def MIN_QUANTITY : Nat := 5

/-- The writes of revision 2's inline date deletion (lines 670-692): the
fetch is customer-filtered by the URL, the code then matches only on the
attribute id; delete by record id when found. -/
def deleteDateEffects (dir : Directory) (dateAttrId cid : Nat) : List Effect :=
  match (dir.attrValues.filter fun av => av.customer_id == cid).find?
      (fun av => av.attribute_id == dateAttrId) with
  | none => []
  | some attr => [Effect.deleteAttr attr.id]

/-- Revision 2 `store/order/created` processing (lines 633-745).  A customer
already in the VIP group is demoted immediately — group removed and the date
record deleted — with no expiry computation at all. -/
def handleOrder (dir : Directory) (vipGroupId dateAttrId : Nat)
    (today : String) (products : List Product) (order : Order)
    (dateOk groupOk : Bool) (verify : Option String) : HandlerResult :=
  match order.customer_id with
  | none => ⟨200, [], false⟩
  | some cid =>
    if cid == 0 then ⟨200, [], false⟩
    else if isVIPIn dir vipGroupId cid then
      ⟨200, Effect.removeVIP cid :: deleteDateEffects dir dateAttrId cid, false⟩
    else if totalQuantity products < MIN_QUANTITY then ⟨200, [], false⟩
    else
      ⟨200, [Effect.setDate cid today, Effect.addVIP cid],
       dateOk && groupOk && verify.isSome⟩

/-- Revision 2 popup endpoint state: the `recentlyQualified` map,
customer id → qualification instant. -/
abbrev RecencyMap : Type := List (Nat × Int)

/-- Operation `recentlyQualified.set(customerId, now)` — JS `Map.set` replaces any
existing binding for the key. -/
def markQualified (m : RecencyMap) (customerId : Nat) (now : Int) : RecencyMap :=
  (customerId, now) :: m.filter fun e => !(e.1 == customerId)

/-- Operation `recentlyQualified.has(customerId)`. -/
def hasRecent (m : RecencyMap) (customerId : Nat) : Bool :=
  m.any fun e => e.1 == customerId

/-- Operation `recentlyQualified.delete(customerId)`. -/
def deleteRecent (m : RecencyMap) (customerId : Nat) : RecencyMap :=
  m.filter fun e => !(e.1 == customerId)

/-- Endpoint `GET /api/just-qualified/:customerId` (revision 2, lines 503-514): read
the flag, consume it when present, answer `justQualified`. -/
def justQualifiedEndpoint (m : RecencyMap) (customerId : Nat) :
    Bool × RecencyMap :=
  let qualified := hasRecent m customerId
  (qualified, if qualified then deleteRecent m customerId else m)

end V2

namespace V3

/-- Constant `MIN_QUANTITY = 5` in revision 3. -/
def MIN_QUANTITY : Nat := 5

/-- Revision 3 `store/order/created` processing (lines 978-1054): guest gate,
quantity gate, then the `checkIfQualified` short-circuit — the customer's VIP
group membership is never consulted on this path. -/
def handleOrder (dir : Directory) (dateAttrId : Nat) (today : String)
    (products : List Product) (order : Order)
    (dateOk groupOk : Bool) (verify : Option String) : HandlerResult :=
  match order.customer_id with
  | none => ⟨200, [], false⟩
  | some cid =>
    if cid == 0 then ⟨200, [], false⟩
    else if totalQuantity products < MIN_QUANTITY then ⟨200, [], false⟩
    else
      match checkIfQualified dir dateAttrId cid with
      | some _ => ⟨200, [], false⟩
      | none =>
        ⟨200, [Effect.setDate cid today, Effect.addVIP cid],
         dateOk && groupOk && verify.isSome⟩

/-- The branches of revision 3's webhook dispatch. -/
inductive Branch where
  | orderCreated
  | expiryCheck
  | cartConverted
  | noOp
deriving Repr, DecidableEq

/-- Revision 3's `if / else if` chain on `scope` (lines 978, 1058, 1082).
`randBelowTenth` stands for `Math.random() < 0.1`. -/
def dispatch (scope : String) (randBelowTenth : Bool) : Branch :=
  if scope == "store/order/created" then Branch.orderCreated
  else if scope == "store/order/created" && randBelowTenth then
    Branch.expiryCheck
  else if scope == "store/cart/converted" then Branch.cartConverted
  else Branch.noOp

/-- Revision 3 `store/cart/converted` processing (lines 1082-1159) once the
order id has been resolved: guest gate, then — for a VIP customer — remove the
group and clear the date by writing the empty string (a PUT, not a delete). -/
def handleCartConverted (dir : Directory) (vipGroupId : Nat)
    (order : Order) : HandlerResult :=
  match order.customer_id with
  | none => ⟨200, [], false⟩
  | some cid =>
    if cid == 0 then ⟨200, [], false⟩
    else if isVIPIn dir vipGroupId cid then
      ⟨200, [Effect.removeVIP cid, Effect.setDate cid ""], false⟩
    else ⟨200, [], false⟩

end V3

/-! Concrete sample values used by witnesses and counterexamples. -/

/-- Scope string of order-created events. -/
def orderCreatedScope : String := "store/order/created"

/-- Scope string of cart-converted events. -/
def cartConvertedScope : String := "store/cart/converted"

/-- A sample current date string. -/
def sampleToday : String := "2026-01-01"

/-- A sample old qualification date string. -/
def oldDate : String := "2025-01-01"

/-- The empty attribute value, as written by revision 3's cart-converted
clear-date path. -/
def emptyValue : String := ""

/-- A sample product name. -/
def wName : String := "widget"

/-- A date oracle mapping every string to instant 0. -/
def zeroParse : String → Int := fun _ => 0

/-- The record-deletion writes among a list of effects. -/
def deleteEffectsOf (es : List Effect) : List Effect :=
  es.filter fun e =>
    match e with
    | Effect.deleteAttr _ => true
    | _ => false

/-- Five units of one product: exactly `MIN_QUANTITY` of revisions 2 and 3. -/
def products5 : List Product := [⟨wName, 5⟩]

/-- Two thousand units of one product: exactly revision 1's `MIN_QUANTITY`. -/
def products2000 : List Product := [⟨wName, 2000⟩]

/-- A sample order by customer 42. -/
def order500 : Order := ⟨500, some 42⟩

/-- A sample guest order. -/
def guestOrder : Order := ⟨501, some 0⟩

/-- Customer 42 outside the VIP group but holding a stale qualification
record (reachable, e.g., after a partial failure where the date write
succeeded and the group write failed). -/
def dirStale : Directory := ⟨[⟨42, 0⟩], [⟨7, 42, 1, oldDate⟩]⟩

/-- Customer 42 inside VIP group 5 with a qualification record. -/
def dirVip : Directory := ⟨[⟨42, 5⟩], [⟨7, 42, 1, oldDate⟩]⟩

/-- Customer 42 inside VIP group 5 with no qualification record. -/
def dirVipNoRec : Directory := ⟨[⟨42, 5⟩], []⟩

/-- Customer 42 outside the VIP group with an empty-valued qualification
record, as left behind by revision 3's cart-converted clear-date path. -/
def dirEmptyVal : Directory := ⟨[⟨42, 0⟩], [⟨7, 42, 1, emptyValue⟩]⟩

/-- Two qualification records, both for the date attribute `1`. -/
def sweepRecords : List AttrValue := [⟨1, 10, 1, oldDate⟩, ⟨2, 20, 1, sampleToday⟩]

/-! Theorems settling the claims. -/

/-- C3: for every order whose `customer_id` is absent or zero (guest order),
every revision's processing issues no directory writes and still acknowledges
the webhook with 200. -/
theorem C3_guest_order_ignored (dir : Directory) (vipGroupId dateAttrId : Nat)
    (parse : String → Int) (now : Int) (today : String)
    (products : List Product) (order : Order)
    (dateOk groupOk : Bool) (verify : Option String)
    (h : order.customer_id = none ∨ order.customer_id = some 0) :
    V1.handleOrder dir vipGroupId dateAttrId parse now today products order
        dateOk groupOk verify = ⟨200, [], false⟩ ∧
    V2.handleOrder dir vipGroupId dateAttrId today products order
        dateOk groupOk verify = ⟨200, [], false⟩ ∧
    V3.handleOrder dir dateAttrId today products order
        dateOk groupOk verify = ⟨200, [], false⟩ := by
  rcases h with h | h <;>
    exact ⟨by simp [V1.handleOrder, h], by simp [V2.handleOrder, h],
           by simp [V3.handleOrder, h]⟩

/-- Witness for C3: a concrete guest order with a huge quantity changes no
state in any revision and is acknowledged with 200. -/
theorem C3_guest_order_ignored_witness :
    V1.handleOrder dirVip 5 1 zeroParse 0 sampleToday [⟨wName, 10000⟩]
        guestOrder true true none = ⟨200, [], false⟩ ∧
    V2.handleOrder dirVip 5 1 sampleToday [⟨wName, 10000⟩]
        guestOrder true true none = ⟨200, [], false⟩ ∧
    V3.handleOrder dirVip 1 sampleToday [⟨wName, 10000⟩]
        guestOrder true true none = ⟨200, [], false⟩ :=
  C3_guest_order_ignored dirVip 5 1 zeroParse 0 sampleToday
    [⟨wName, 10000⟩] guestOrder true true none (Or.inr rfl)

/-- C8: Recency Tracker one-shot semantics — after `markQualified`, the first
popup-check query answers `justQualified = true` and deletes the mark, and an
immediate second query answers `false`. -/
theorem C8_recency_one_shot (m : V2.RecencyMap) (cid : Nat) (now : Int) :
    (V2.justQualifiedEndpoint (V2.markQualified m cid now) cid).1 = true ∧
    V2.hasRecent
      (V2.justQualifiedEndpoint (V2.markQualified m cid now) cid).2 cid = false ∧
    (V2.justQualifiedEndpoint
      (V2.justQualifiedEndpoint (V2.markQualified m cid now) cid).2 cid).1
        = false := by
  have hmark : V2.hasRecent (V2.markQualified m cid now) cid = true := by
    simp [V2.hasRecent, V2.markQualified]
  have hdel : ∀ m' : V2.RecencyMap, V2.hasRecent (V2.deleteRecent m' cid) cid = false := by
    intro m'
    simp [V2.hasRecent, V2.deleteRecent]
  refine ⟨by simp [V2.justQualifiedEndpoint, hmark], ?_, ?_⟩
  · simp [V2.justQualifiedEndpoint, hmark, hdel]
  · simp [V2.justQualifiedEndpoint, hmark, hdel]

/-- C9: revision 3's inline expired-VIP cleanup branch is dead code — the
`else if (scope === 'store/order/created' && Math.random() < 0.1)` arm can
never be selected, for any scope and any random draw. -/
theorem C9_expiry_branch_unreachable (scope : String) (randBelowTenth : Bool) :
    V3.dispatch scope randBelowTenth ≠ V3.Branch.expiryCheck := by
  intro hcontra
  unfold V3.dispatch at hcontra
  by_cases h : scope == "store/order/created"
  · simp [h] at hcontra
  · rw [Bool.not_eq_true] at h
    simp [h] at hcontra
    split at hcontra <;> simp_all

/-- Witness for C9 at the order-created scope with the random draw below
one tenth: even there the expiry branch is not selected. -/
theorem C9_expiry_branch_unreachable_witness :
    V3.dispatch orderCreatedScope true ≠ V3.Branch.expiryCheck :=
  C9_expiry_branch_unreachable orderCreatedScope true

/-- Helper: a missing or empty-valued qualification record makes
`checkExpiry` report already-expired. -/
theorem checkExpiry_expired_of_missing_or_empty (parse : String → Int)
    (now : Int) (dir : Directory) (dateAttrId cid : Nat)
    (h : ∀ a, getQualificationAttribute dir dateAttrId cid = some a →
      a.attribute_value = "") :
    (checkExpiry parse now dir dateAttrId cid).expired = true := by
  unfold checkExpiry
  cases hg : getQualificationAttribute dir dateAttrId cid with
  | none => rfl
  | some a => simp [h a hg]

/-- C6: in revision 1, an order from a customer holding VIP group membership
but with no qualification record (or an empty value) is treated as
already-expired: the handler removes the VIP group and attempts deletion of
the record instead of leaving membership in place. -/
theorem C6_missing_record_demotes
    (dir : Directory) (vipGroupId dateAttrId : Nat) (parse : String → Int)
    (now : Int) (today : String) (products : List Product) (oid cid : Nat)
    (dateOk groupOk : Bool) (verify : Option String)
    (hcid : cid ≠ 0) (hvip : isVIPIn dir vipGroupId cid = true)
    (hrec : ∀ a, getQualificationAttribute dir dateAttrId cid = some a →
      a.attribute_value = "") :
    (V1.handleOrder dir vipGroupId dateAttrId parse now today products
        ⟨oid, some cid⟩ dateOk groupOk verify).effects
      = Effect.removeVIP cid ::
          deleteQualificationDateEffects dir dateAttrId cid ∧
    Effect.removeVIP cid ∈
      (V1.handleOrder dir vipGroupId dateAttrId parse now today products
        ⟨oid, some cid⟩ dateOk groupOk verify).effects := by
  have hexp := checkExpiry_expired_of_missing_or_empty parse now dir
    dateAttrId cid hrec
  have hc0 : (cid == 0) = false := by simpa using hcid
  refine ⟨?_, ?_⟩ <;> simp [V1.handleOrder, hc0, hvip, hexp]

/-- Witness for C6: a concrete VIP customer with no record is demoted. -/
theorem C6_missing_record_demotes_witness :
    (V1.handleOrder dirVipNoRec 5 1 zeroParse 0 sampleToday products5
        ⟨500, some 42⟩ true true none).effects
      = Effect.removeVIP 42 :: deleteQualificationDateEffects dirVipNoRec 1 42 ∧
    Effect.removeVIP 42 ∈
      (V1.handleOrder dirVipNoRec 5 1 zeroParse 0 sampleToday products5
        ⟨500, some 42⟩ true true none).effects :=
  C6_missing_record_demotes dirVipNoRec 5 1 zeroParse 0 sampleToday products5
    500 42 true true none (by decide) (by decide)
    (fun a ha => by simp [getQualificationAttribute, dirVipNoRec] at ha)

/-- Helper: with no write failures the sweep loop runs to completion and
demotes precisely the records exceeding the discount window. -/
theorem sweepLoop_noFail (parse : String → Int) (now : Int)
    (l : List AttrValue) :
    V1.sweepLoop parse now (fun _ => false) (fun _ => false) l =
      (l.flatMap fun a =>
        if DISCOUNT_DAYS * msPerDay < now - parse a.attribute_value
        then [Effect.removeVIP a.customer_id, Effect.deleteAttr a.id]
        else [],
       true) := by
  induction l with
  | nil => rfl
  | cons a rest ih =>
    by_cases h : DISCOUNT_DAYS * msPerDay < now - parse a.attribute_value <;>
      simp [V1.sweepLoop, h, ih]

/-- C4: absent write failures, the Expiry Sweeper demotes (group removal plus
record deletion) exactly the date-attribute records with a non-empty value
strictly older than DISCOUNT_DAYS; a record aged exactly 90 days — or
younger — contributes no action. -/
theorem C4_sweeper_strict_threshold (parse : String → Int) (now : Int)
    (dateAttrId : Nat) (allAttributes : List AttrValue) :
    V1.checkExpiredVIPCustomers parse now dateAttrId
        (fun _ => false) (fun _ => false) allAttributes =
      ((allAttributes.filter fun a =>
          a.attribute_id == dateAttrId && !(a.attribute_value == "")).flatMap
        fun a =>
          if DISCOUNT_DAYS * msPerDay < now - parse a.attribute_value
          then [Effect.removeVIP a.customer_id, Effect.deleteAttr a.id]
          else [],
       true) ∧
    (∀ a : AttrValue, now - parse a.attribute_value ≤ DISCOUNT_DAYS * msPerDay →
      V1.checkExpiredVIPCustomers parse now dateAttrId
        (fun _ => false) (fun _ => false) [a] = ([], true)) := by
  constructor
  · unfold V1.checkExpiredVIPCustomers
    exact sweepLoop_noFail parse now _
  · intro a hle
    unfold V1.checkExpiredVIPCustomers
    by_cases hf : (a.attribute_id == dateAttrId && !(a.attribute_value == "")) = true
    · simp [List.filter, hf, V1.sweepLoop, not_lt.mpr hle]
    · simp [List.filter, hf, V1.sweepLoop]

/-- Witness for C4: a record aged exactly 90 days is left untouched. -/
theorem C4_sweeper_strict_threshold_witness :
    V1.checkExpiredVIPCustomers zeroParse (DISCOUNT_DAYS * msPerDay) 1
      (fun _ => false) (fun _ => false) [⟨7, 42, 1, oldDate⟩] = ([], true) :=
  (C4_sweeper_strict_threshold zeroParse (DISCOUNT_DAYS * msPerDay) 1
    [⟨7, 42, 1, oldDate⟩]).2 ⟨7, 42, 1, oldDate⟩ (by decide)

/-- C10: the empty-string qualification value reads as not qualified —
`checkIfQualified` answers `null` exactly when the record is absent or its
value is the empty string; a customer whose date was cleared to the empty
string by the cart-converted path (which issues a PUT of the empty string,
never a delete) is therefore requalified by a later qualifying order even
though an attribute-value record still exists. -/
theorem C10_empty_value_reads_unqualified (dir : Directory)
    (dateAttrId cid : Nat) :
    (checkIfQualified dir dateAttrId cid = none ↔
      getQualificationAttribute dir dateAttrId cid = none ∨
      ∃ a, getQualificationAttribute dir dateAttrId cid = some a ∧
        a.attribute_value = "") ∧
    (∀ (a : AttrValue) (today : String) (products : List Product)
        (oid : Nat) (dateOk groupOk : Bool) (verify : Option String),
      getQualificationAttribute dir dateAttrId cid = some a →
      a.attribute_value = "" → cid ≠ 0 →
      V3.MIN_QUANTITY ≤ totalQuantity products →
      Effect.setDate cid today ∈
        (V3.handleOrder dir dateAttrId today products ⟨oid, some cid⟩
          dateOk groupOk verify).effects) ∧
    (∀ vipGroupId oid : Nat, cid ≠ 0 → isVIPIn dir vipGroupId cid = true →
      Effect.setDate cid emptyValue ∈
        (V3.handleCartConverted dir vipGroupId ⟨oid, some cid⟩).effects ∧
      ∀ rid : Nat, Effect.deleteAttr rid ∉
        (V3.handleCartConverted dir vipGroupId ⟨oid, some cid⟩).effects) := by
  refine ⟨?_, ?_, ?_⟩
  · unfold checkIfQualified
    cases hg : getQualificationAttribute dir dateAttrId cid with
    | none => simp
    | some a =>
      by_cases hv : a.attribute_value = "" <;> simp [hv]
  · intro a today products oid dateOk groupOk verify ha hv hc hq
    have hc0 : (cid == 0) = false := by simpa using hc
    have hnull : checkIfQualified dir dateAttrId cid = none := by
      simp [checkIfQualified, ha, hv]
    simp [V3.handleOrder, hc0, hnull, Nat.not_lt.mpr hq]
  · intro vipGroupId oid hc hvip
    have hc0 : (cid == 0) = false := by simpa using hc
    constructor
    · simp [V3.handleCartConverted, hc0, hvip, emptyValue]
    · intro rid
      simp [V3.handleCartConverted, hc0, hvip]

/-- Witness for C10: with an empty-valued record present, a qualifying order
still writes a fresh qualification date for customer 42 in revision 3. -/
theorem C10_empty_value_reads_unqualified_witness :
    Effect.setDate 42 sampleToday ∈
      (V3.handleOrder dirEmptyVal 1 sampleToday products5 ⟨500, some 42⟩
        true true none).effects :=
  (C10_empty_value_reads_unqualified dirEmptyVal 1 42).2.1
    ⟨7, 42, 1, emptyValue⟩ sampleToday products5 500 true true none
    (by decide) (by decide) (by decide) (by decide)

/-- Helper: purging preserves membership. -/
theorem mem_of_mem_purge {e : String × Int} {t : Int} {l : DedupState}
    (h : e ∈ purge t l) : e ∈ l :=
  (List.mem_filter.mp h).1

/-- Helper: a key appearing in no entry makes the dedup `any` test false. -/
theorem any_eq_false_of_fresh (l : DedupState) (k : String)
    (h : ∀ e ∈ l, e.1 ≠ k) : (l.any fun e => e.1 == k) = false := by
  simp only [List.any_eq_false]
  intro e he
  simpa using h e he

/-- C7: two webhook deliveries with identical (scope, data.id, created_at)
within the 60-second window process exactly once — the first passes the gate,
the duplicate is refused and (in revision 1) acknowledged with 200 and no
writes — while the same identity presented after the window has elapsed is
processed again. -/
theorem C7_dedup_window (st : DedupState) (scope : String)
    (dataId created_at : Nat) (t0 t1 t2 : Int)
    (hfresh : ∀ e ∈ st, e.1 ≠ webhookKey scope dataId created_at)
    (h1 : t1 < t0 + DEDUP_WINDOW) (h2 : t0 + DEDUP_WINDOW ≤ t2) :
    (dedupStep st (webhookKey scope dataId created_at) t0).1 = true ∧
    (dedupStep (dedupStep st (webhookKey scope dataId created_at) t0).2
      (webhookKey scope dataId created_at) t1).1 = false ∧
    (dedupStep (dedupStep (dedupStep st
          (webhookKey scope dataId created_at) t0).2
        (webhookKey scope dataId created_at) t1).2
      (webhookKey scope dataId created_at) t2).1 = true ∧
    (∀ (dir : Directory) (vipGroupId dateAttrId : Nat)
        (parse : String → Int) (today : String) (fetchOrder : Nat → Order)
        (fetchProducts : Nat → List Product) (dateOk groupOk : Bool)
        (verify : Option String) (st' : DedupState) (now : Int),
      (dedupStep st' (webhookKey scope dataId created_at) now).1 = false →
      V1.webhook dir vipGroupId dateAttrId parse today fetchOrder
          fetchProducts dateOk groupOk verify st' scope dataId created_at now
        = (⟨200, [], false⟩,
           (dedupStep st' (webhookKey scope dataId created_at) now).2)) := by
  set key := webhookKey scope dataId created_at with hkdef
  have hfresh0 : ∀ e ∈ purge t0 st, e.1 ≠ key :=
    fun e he => hfresh e (mem_of_mem_purge he)
  have hr1 : dedupStep st key t0 = (true, (key, t0) :: purge t0 st) := by
    simp [dedupStep, any_eq_false_of_fresh _ _ hfresh0]
  have hpurge1 : purge t1 ((key, t0) :: purge t0 st)
      = (key, t0) :: purge t1 (purge t0 st) := by
    simp [purge, List.filter_cons, h1]
  have hr2 : dedupStep ((key, t0) :: purge t0 st) key t1
      = (false, (key, t0) :: purge t1 (purge t0 st)) := by
    simp [dedupStep, hpurge1]
  have hnot2 : ¬ t2 < t0 + DEDUP_WINDOW := not_lt.mpr h2
  have hpurge2 : purge t2 ((key, t0) :: purge t1 (purge t0 st))
      = purge t2 (purge t1 (purge t0 st)) := by
    simp [purge, List.filter_cons, hnot2]
  have hfresh2 : ∀ e ∈ purge t2 (purge t1 (purge t0 st)), e.1 ≠ key :=
    fun e he => hfresh e
      (mem_of_mem_purge (mem_of_mem_purge (mem_of_mem_purge he)))
  have hr3 : (dedupStep ((key, t0) :: purge t1 (purge t0 st)) key t2).1
      = true := by
    simp [dedupStep, hpurge2, any_eq_false_of_fresh _ _ hfresh2]
  refine ⟨by rw [hr1], by rw [hr1, hr2], by rw [hr1, hr2]; exact hr3, ?_⟩
  intro dir vipGroupId dateAttrId parse today fo fp dOk gOk verify st' now hdup
  simp [V1.webhook, hdup]

/-- Witness for C7 at a fresh state: processed at 0, refused at 1, processed
again at 60000. -/
theorem C7_dedup_window_witness :
    (dedupStep [] (webhookKey orderCreatedScope 500 12345) 0).1 = true ∧
    (dedupStep (dedupStep [] (webhookKey orderCreatedScope 500 12345) 0).2
      (webhookKey orderCreatedScope 500 12345) 1).1 = false ∧
    (dedupStep (dedupStep (dedupStep []
          (webhookKey orderCreatedScope 500 12345) 0).2
        (webhookKey orderCreatedScope 500 12345) 1).2
      (webhookKey orderCreatedScope 500 12345) 60000).1 = true :=
  have h := C7_dedup_window [] orderCreatedScope 500 12345 0 1 60000
    (by simp) (by decide) (by decide)
  ⟨h.1, h.2.1, h.2.2.1⟩

/-- Counterexample to C1 as stated: in revision 3, customer 42 is not in the
VIP group and the order's total quantity equals MIN_QUANTITY, yet the handler
issues no write at all — a leftover non-empty qualification record
short-circuits qualification before any write. -/
theorem C1_counterexample :
    totalQuantity products5 = V3.MIN_QUANTITY ∧
    isVIPIn dirStale 5 42 = false ∧
    (V3.handleOrder dirStale 1 sampleToday products5 ⟨500, some 42⟩
      true true none).effects = [] ∧
    (V3.handleOrder dirStale 1 sampleToday products5 ⟨500, some 42⟩
      true true none).markedRecent = false := by
  decide

/-- C1 amended: in revision 1 an order for a non-VIP customer triggers
qualification (date write and VIP group add issued) iff its total quantity
reaches MIN_QUANTITY, threshold inclusive; in revision 3 qualification
additionally requires that no non-empty qualification record already
exists for the customer. -/
theorem C1_qualification_threshold (dir : Directory)
    (vipGroupId dateAttrId : Nat) (parse : String → Int) (now : Int)
    (today : String) (products : List Product) (oid cid : Nat)
    (dateOk groupOk : Bool) (verify : Option String)
    (hcid : cid ≠ 0) (hvip : isVIPIn dir vipGroupId cid = false) :
    ((Effect.setDate cid today ∈
        (V1.handleOrder dir vipGroupId dateAttrId parse now today products
          ⟨oid, some cid⟩ dateOk groupOk verify).effects ∧
      Effect.addVIP cid ∈
        (V1.handleOrder dir vipGroupId dateAttrId parse now today products
          ⟨oid, some cid⟩ dateOk groupOk verify).effects)
      ↔ V1.MIN_QUANTITY ≤ totalQuantity products) ∧
    ((Effect.setDate cid today ∈
        (V3.handleOrder dir dateAttrId today products ⟨oid, some cid⟩
          dateOk groupOk verify).effects ∧
      Effect.addVIP cid ∈
        (V3.handleOrder dir dateAttrId today products ⟨oid, some cid⟩
          dateOk groupOk verify).effects)
      ↔ (V3.MIN_QUANTITY ≤ totalQuantity products ∧
         checkIfQualified dir dateAttrId cid = none)) := by
  have hc0 : (cid == 0) = false := by simpa using hcid
  constructor
  · by_cases hq : totalQuantity products < V1.MIN_QUANTITY
    · simp only [V1.handleOrder, hc0, hvip]
      simp [hq]
    · simp only [V1.handleOrder, hc0, hvip]
      simp [hq]
      omega
  · by_cases hq : totalQuantity products < V3.MIN_QUANTITY
    · simp only [V3.handleOrder, hc0]
      simp [hq]
    · cases hqual : checkIfQualified dir dateAttrId cid with
      | none =>
        simp only [V3.handleOrder, hc0]
        simp [hq, hqual]
        omega
      | some v =>
        simp only [V3.handleOrder, hc0]
        simp [hq, hqual]

/-- Witness for C1's amended statement at revision 1's exact boundary
quantity and a customer with a stale record. -/
theorem C1_qualification_threshold_witness :
    ((Effect.setDate 42 sampleToday ∈
        (V1.handleOrder dirStale 5 1 zeroParse 0 sampleToday products2000
          ⟨500, some 42⟩ true true none).effects ∧
      Effect.addVIP 42 ∈
        (V1.handleOrder dirStale 5 1 zeroParse 0 sampleToday products2000
          ⟨500, some 42⟩ true true none).effects)
      ↔ V1.MIN_QUANTITY ≤ totalQuantity products2000) ∧
    ((Effect.setDate 42 sampleToday ∈
        (V3.handleOrder dirStale 1 sampleToday products2000 ⟨500, some 42⟩
          true true none).effects ∧
      Effect.addVIP 42 ∈
        (V3.handleOrder dirStale 1 sampleToday products2000 ⟨500, some 42⟩
          true true none).effects)
      ↔ (V3.MIN_QUANTITY ≤ totalQuantity products2000 ∧
         checkIfQualified dirStale 1 42 = none)) :=
  C1_qualification_threshold dirStale 5 1 zeroParse 0 sampleToday
    products2000 500 42 true true none (by decide) (by decide)

/-- Counterexample to C2 as stated: in revision 2, customer 42 holds VIP
membership and the qualification record is well inside the 90-day window
(`expired = false`), yet the order handler removes the group and deletes the
record. -/
theorem C2_counterexample :
    isVIPIn dirVip 5 42 = true ∧
    (checkExpiry zeroParse 0 dirVip 1 42).expired = false ∧
    Effect.removeVIP 42 ∈
      (V2.handleOrder dirVip 5 1 sampleToday products5 ⟨500, some 42⟩
        true true none).effects ∧
    Effect.deleteAttr 7 ∈
      (V2.handleOrder dirVip 5 1 sampleToday products5 ⟨500, some 42⟩
        true true none).effects := by
  decide

/-- C2 amended: revision 1 takes NoAction — status 200, no writes — on an
order from a VIP customer whose record is unexpired, while revision 2 demotes
a VIP customer immediately on any order (single-use policy): the group is
removed and the record deletion issued regardless of the record's age. -/
theorem C2_active_vip_policy (dir : Directory) (vipGroupId dateAttrId : Nat)
    (parse : String → Int) (now : Int) (today : String)
    (products : List Product) (oid cid : Nat) (dateOk groupOk : Bool)
    (verify : Option String)
    (hcid : cid ≠ 0) (hvip : isVIPIn dir vipGroupId cid = true) :
    ((checkExpiry parse now dir dateAttrId cid).expired = false →
      V1.handleOrder dir vipGroupId dateAttrId parse now today products
        ⟨oid, some cid⟩ dateOk groupOk verify = ⟨200, [], false⟩) ∧
    (V2.handleOrder dir vipGroupId dateAttrId today products
        ⟨oid, some cid⟩ dateOk groupOk verify).effects =
      Effect.removeVIP cid :: V2.deleteDateEffects dir dateAttrId cid := by
  have hc0 : (cid == 0) = false := by simpa using hcid
  constructor
  · intro hexp
    simp [V1.handleOrder, hc0, hvip, hexp]
  · simp [V2.handleOrder, hc0, hvip]

/-- Witness for C2's amended statement at a VIP customer with an unexpired
record. -/
theorem C2_active_vip_policy_witness :
    V1.handleOrder dirVip 5 1 zeroParse 0 sampleToday products5
        ⟨500, some 42⟩ true true none = ⟨200, [], false⟩ ∧
    (V2.handleOrder dirVip 5 1 sampleToday products5
        ⟨500, some 42⟩ true true none).effects =
      Effect.removeVIP 42 :: V2.deleteDateEffects dirVip 1 42 :=
  have h := C2_active_vip_policy dirVip 5 1 zeroParse 0 sampleToday products5
    500 42 true true none (by decide) (by decide)
  ⟨h.1 (by decide), h.2⟩

/-- Counterexample to C5 as stated: both records have exceeded the window;
the record deletion for the first fails, and because that `axios.delete` is
only protected by the sweep's outer try/catch the pass aborts — customer 20
is neither removed from the group nor has its record deleted in this pass. -/
theorem C5_counterexample :
    DISCOUNT_DAYS * msPerDay < 91 * msPerDay - zeroParse oldDate ∧
    DISCOUNT_DAYS * msPerDay < 91 * msPerDay - zeroParse sampleToday ∧
    V1.checkExpiredVIPCustomers zeroParse (91 * msPerDay) 1
      (fun _ => false) (fun i => i == 1) sweepRecords
      = ([Effect.removeVIP 10], false) ∧
    decide (Effect.removeVIP 20 ∈
      (V1.checkExpiredVIPCustomers zeroParse (91 * msPerDay) 1
        (fun _ => false) (fun i => i == 1) sweepRecords).1) = false ∧
    decide (Effect.deleteAttr 2 ∈
      (V1.checkExpiredVIPCustomers zeroParse (91 * msPerDay) 1
        (fun _ => false) (fun i => i == 1) sweepRecords).1) = false := by
  decide

/-- Helper: the sweep loop's step equation on a cons cell. -/
theorem sweepLoop_cons (parse : String → Int) (now : Int)
    (f d : Nat → Bool) (a : AttrValue) (rest : List AttrValue) :
    V1.sweepLoop parse now f d (a :: rest) =
      if DISCOUNT_DAYS * msPerDay < now - parse a.attribute_value then
        if d a.id then
          ((if f a.customer_id then [] else [Effect.removeVIP a.customer_id]),
           false)
        else
          ((if f a.customer_id then [] else [Effect.removeVIP a.customer_id])
             ++ Effect.deleteAttr a.id :: (V1.sweepLoop parse now f d rest).1,
           (V1.sweepLoop parse now f d rest).2)
      else V1.sweepLoop parse now f d rest := by
  by_cases hexp : DISCOUNT_DAYS * msPerDay < now - parse a.attribute_value <;>
    by_cases hd : d a.id <;> simp [V1.sweepLoop, hexp, hd]

/-- C5 amended: a group-removal failure (caught inside `removeFromVIPGroup`)
never aborts the sweep — pass completion and the record deletions issued are
independent of which group removals fail — while a record-deletion failure
aborts the pass: no further record of the same pass is processed. -/
theorem C5_sweep_failure_isolation :
    (∀ (parse : String → Int) (now : Int) (dateAttrId : Nat)
        (f g d : Nat → Bool) (avs : List AttrValue),
      (V1.checkExpiredVIPCustomers parse now dateAttrId f d avs).2 =
        (V1.checkExpiredVIPCustomers parse now dateAttrId g d avs).2 ∧
      deleteEffectsOf
          (V1.checkExpiredVIPCustomers parse now dateAttrId f d avs).1 =
        deleteEffectsOf
          (V1.checkExpiredVIPCustomers parse now dateAttrId g d avs).1) ∧
    (∀ (parse : String → Int) (now : Int) (f d : Nat → Bool)
        (a : AttrValue) (rest : List AttrValue),
      DISCOUNT_DAYS * msPerDay < now - parse a.attribute_value →
      d a.id = true →
      V1.sweepLoop parse now f d (a :: rest) =
        ((if f a.customer_id then [] else [Effect.removeVIP a.customer_id]),
         false)) := by
  constructor
  · have key : ∀ (parse : String → Int) (now : Int) (f g d : Nat → Bool)
        (l : List AttrValue),
        (V1.sweepLoop parse now f d l).2 = (V1.sweepLoop parse now g d l).2 ∧
        deleteEffectsOf (V1.sweepLoop parse now f d l).1 =
          deleteEffectsOf (V1.sweepLoop parse now g d l).1 := by
      intro parse now f g d l
      induction l with
      | nil => exact ⟨rfl, rfl⟩
      | cons a rest ih =>
        have hdelRem : ∀ h : Bool,
            deleteEffectsOf
              (if h then [] else [Effect.removeVIP a.customer_id]) = [] := by
          intro h
          cases h <;> simp [deleteEffectsOf]
        have hdelStep : ∀ (h : Bool) (tl : List Effect),
            deleteEffectsOf
              ((if h then [] else [Effect.removeVIP a.customer_id]) ++
                Effect.deleteAttr a.id :: tl)
              = Effect.deleteAttr a.id :: deleteEffectsOf tl := by
          intro h tl
          cases h <;> simp [deleteEffectsOf]
        rw [sweepLoop_cons parse now f d, sweepLoop_cons parse now g d]
        by_cases hexp : DISCOUNT_DAYS * msPerDay < now - parse a.attribute_value
        · by_cases hd : d a.id
          · simp only [if_pos hexp, if_pos hd]
            exact ⟨by simp, by simp [hdelRem]⟩
          · simp only [if_pos hexp, if_neg hd]
            exact ⟨ih.1, by rw [hdelStep, hdelStep, ih.2]⟩
        · simp only [if_neg hexp]
          exact ih
    intro parse now dateAttrId f g d avs
    exact key parse now f g d _
  · intro parse now f d a rest hexp hd
    simp [V1.sweepLoop, hexp, hd]

/-- Witness for C5's amended statement: the abort case evaluated at the
concrete two-record pass. -/
theorem C5_sweep_failure_isolation_witness :
    V1.sweepLoop zeroParse (91 * msPerDay) (fun _ => false) (fun i => i == 1)
      sweepRecords = ([Effect.removeVIP 10], false) := by
  have h := C5_sweep_failure_isolation.2 zeroParse (91 * msPerDay)
    (fun _ => false) (fun i => i == 1) ⟨1, 10, 1, oldDate⟩
    [⟨2, 20, 1, sampleToday⟩] (by decide) (by decide)
  simpa [sweepRecords] using h

end Scales
